import Mathlib

/-!
Verification of the disk-space-optimizer CLI (src/src/main.rs) against its
specification. The Rust source is shallowly embedded: external process
invocations are parameterized by an oracle that yields the observable
outcome of each spawn, interactive prompts are parameterized by the data
the user would supply, and each workflow returns the list of commands it
invoked together with its result value.
-/

set_option autoImplicit false

/-- Unicode white space exactly as Rust uses it in str::trim
(char::is_whitespace, the White_Space property). -/
def isRustWhitespace (c : Char) : Bool :=
  decide (c.toNat ∈ [0x09, 0x0A, 0x0B, 0x0C, 0x0D, 0x20, 0x85, 0xA0, 0x1680,
    0x2000, 0x2001, 0x2002, 0x2003, 0x2004, 0x2005, 0x2006, 0x2007, 0x2008,
    0x2009, 0x200A, 0x2028, 0x2029, 0x202F, 0x205F, 0x3000])

/-- Embedding of Rust str::trim: remove leading and trailing white space. -/
def trimString (s : String) : String :=
  ⟨((s.data.dropWhile isRustWhitespace).reverse.dropWhile isRustWhitespace).reverse⟩

/-- A byte is a UTF-8 continuation byte (0x80..0xBF). -/
def isCont (b : Nat) : Bool :=
  decide (0x80 ≤ b ∧ b ≤ 0xBF)

/-- Allowed range of the first continuation byte after a three-byte lead,
following the UTF-8 validity table (excludes overlong forms and surrogates). -/
def cont1ok3 (lead c1 : Nat) : Bool :=
  if lead = 0xE0 then decide (0xA0 ≤ c1 ∧ c1 ≤ 0xBF)
  else if lead = 0xED then decide (0x80 ≤ c1 ∧ c1 ≤ 0x9F)
  else isCont c1

/-- Allowed range of the first continuation byte after a four-byte lead. -/
def cont1ok4 (lead c1 : Nat) : Bool :=
  if lead = 0xF0 then decide (0x90 ≤ c1 ∧ c1 ≤ 0xBF)
  else if lead = 0xF4 then decide (0x80 ≤ c1 ∧ c1 ≤ 0x8F)
  else isCont c1

/-- The Unicode replacement character emitted for invalid byte sequences. -/
def replChar : Char := Char.ofNat 0xFFFD

/-- One step of lossy UTF-8 decoding: given the first byte and the bytes
after it, return the decoded character (or the replacement character for a
maximal invalid subpart) and how many of the following bytes were consumed. -/
def utf8Step (b : Nat) (rest : List Nat) : Char × Nat :=
  if b < 0x80 then (Char.ofNat b, 0)
  else if b < 0xC2 then (replChar, 0)
  else if b ≤ 0xDF then
    match rest with
    | c1 :: _ =>
      if isCont c1 then (Char.ofNat ((b - 0xC0) * 64 + (c1 - 0x80)), 1)
      else (replChar, 0)
    | [] => (replChar, 0)
  else if b ≤ 0xEF then
    match rest with
    | c1 :: c2 :: _ =>
      if cont1ok3 b c1 then
        if isCont c2 then
          (Char.ofNat ((b - 0xE0) * 4096 + (c1 - 0x80) * 64 + (c2 - 0x80)), 2)
        else (replChar, 1)
      else (replChar, 0)
    | [c1] => if cont1ok3 b c1 then (replChar, 1) else (replChar, 0)
    | [] => (replChar, 0)
  else if b ≤ 0xF4 then
    match rest with
    | c1 :: c2 :: c3 :: _ =>
      if cont1ok4 b c1 then
        if isCont c2 then
          if isCont c3 then
            (Char.ofNat ((b - 0xF0) * 262144 + (c1 - 0x80) * 4096 +
              (c2 - 0x80) * 64 + (c3 - 0x80)), 3)
          else (replChar, 2)
        else (replChar, 1)
      else (replChar, 0)
    | [c1, c2] =>
      if cont1ok4 b c1 then
        if isCont c2 then (replChar, 2) else (replChar, 1)
      else (replChar, 0)
    | [c1] => if cont1ok4 b c1 then (replChar, 1) else (replChar, 0)
    | [] => (replChar, 0)
  else (replChar, 0)

/-- Fuel-driven loop of the lossy decoder; the fuel only serves structural
termination and is always at least the number of bytes. -/
def lossyGo : Nat → List Nat → List Char
  | _, [] => []
  | 0, _ :: _ => []
  | fuel + 1, b :: rest =>
    let step := utf8Step b rest
    step.1 :: lossyGo fuel (rest.drop step.2)

/-- Embedding of Rust String::from_utf8_lossy on a byte list: decode UTF-8,
replacing each maximal invalid subpart with U+FFFD, never failing. -/
def lossyDecodeList (bytes : List Nat) : List Char :=
  lossyGo bytes.length bytes

/-- String form of the lossy UTF-8 decoding. -/
def lossyDecode (bytes : List Nat) : String :=
  ⟨lossyDecodeList bytes⟩

/-- Embedding of Rust String::from_utf8 validity (used by the strict,
panicking conversion in the kernels workflow). -/
def validUtf8 : List Nat → Bool
  | [] => true
  | b :: rest =>
    if b < 0x80 then validUtf8 rest
    else if b < 0xC2 then false
    else if b ≤ 0xDF then
      match rest with
      | [] => false
      | c1 :: rest1 => isCont c1 && validUtf8 rest1
    else if b ≤ 0xEF then
      match rest with
      | [] => false
      | c1 :: rest1 =>
        match rest1 with
        | [] => false
        | c2 :: rest2 => cont1ok3 b c1 && isCont c2 && validUtf8 rest2
    else if b ≤ 0xF4 then
      match rest with
      | [] => false
      | c1 :: rest1 =>
        match rest1 with
        | [] => false
        | c2 :: rest2 =>
          match rest2 with
          | [] => false
          | c3 :: rest3 => cont1ok4 b c1 && isCont c2 && isCont c3 && validUtf8 rest3
    else false

/-- The bytes of an ASCII string, for writing concrete process outputs. -/
def asciiBytes (s : String) : List Nat :=
  s.data.map Char.toNat

/-- Observable outcome of a spawned child process that did start: its exit
status (0 means success) and captured stdout and stderr bytes. -/
structure Output where
  status : Int
  stdout : List Nat
  stderr : List Nat

/-- Errors produced by the process runner execute_cmd, mirroring the two
anyhow error shapes of the source: the with_context wrapper around a spawn
failure, and the command-failed message carrying status and trimmed stderr. -/
inductive CmdErr where
  | spawnFailed (msg : String)
  | commandFailed (status : Int) (stderr : String)
deriving DecidableEq, Repr

/-- Embedding of execute_cmd from src/src/main.rs (lines 155-173). The
spawn outcome is a parameter: none models a failure to even start the
child, some o the completed child. On exit status 0 the lossily decoded,
trimmed stdout is returned; otherwise an error carrying the status and
trimmed stderr. -/
def execute_cmd (cmd : String) (args : List String) (out : Option Output) :
    Except CmdErr String :=
  match out with
  | none =>
    Except.error (CmdErr.spawnFailed
      ("Failed to execute command: " ++ cmd ++ " " ++ String.intercalate " " args))
  | some o =>
    if o.status = 0 then Except.ok (trimString (lossyDecode o.stdout))
    else Except.error (CmdErr.commandFailed o.status (trimString (lossyDecode o.stderr)))

/-- A selectable menu entry from mod multidialogue: a key and a label. The
source parameterizes the key type and instantiates it only at i32
(get_commands), so the key is embedded as an integer. -/
structure SelectableItem where
  key : Int
  text : String
deriving DecidableEq, Repr

/-- The registry of selectable menu entries (mod multidialogue). The field
is an Option exactly as in the source, where a fresh registry holds None. -/
structure DiskSpaceOptimizerItems where
  options : Option (List SelectableItem)
deriving DecidableEq, Repr

/-- DiskSpaceOptimizerItems::new: a registry with no options. -/
def DiskSpaceOptimizerItems.new : DiskSpaceOptimizerItems :=
  ⟨none⟩

/-- DiskSpaceOptimizerItems::with_option: append one option, turning a
missing option list into an empty one first. -/
def with_option (self : DiskSpaceOptimizerItems) (option : SelectableItem) :
    DiskSpaceOptimizerItems :=
  ⟨some (self.options.getD [] ++ [option])⟩

/-- multidialogue::format_prompt_item: render every item as "key: text";
a missing option list renders as the empty list, and the result is always
a success value. -/
def format_prompt_item (items : DiskSpaceOptimizerItems) :
    Except String (List String) :=
  Except.ok ((items.options.getD []).map (fun item => Int.repr item.key ++ ": " ++ item.text))

/-- get_commands from src/src/main.rs: the fixed six-entry menu registry. -/
def get_commands : DiskSpaceOptimizerItems :=
  with_option (with_option (with_option (with_option (with_option (with_option
    DiskSpaceOptimizerItems.new
    ⟨1, "Remove unnecessary packages"⟩)
    ⟨2, "Clean package cache"⟩)
    ⟨3, "Uninstall unused applications"⟩)
    ⟨4, "Remove old kernel versions"⟩)
    ⟨5, "Clean up log files"⟩)
    ⟨0, "Exit"⟩

/-- multidialogue::run_dialoguer. The interactive MultiSelect backend is
modelled from the spec: the user toggles entries (a toggle flips the
checked state, starting from the defaults) and the backend returns the
checked indices in ascending index order. A returned none models a panic:
the source unwraps items.options (None panics) and, when the defaults
vector is non-empty, unwraps options.last(). -/
def run_dialoguer (items : DiskSpaceOptimizerItems) (toggles : List Nat) :
    Option (List SelectableItem) :=
  match items.options with
  | none => none
  | some options =>
    let defaults0 : List Bool := List.replicate options.length false
    match
      (if defaults0.isEmpty then some defaults0
       else
         match options.getLast? with
         | none => none
         | some _last => some (defaults0.dropLast ++ [true])) with
    | none => none
    | some defaults =>
      let checked : Nat → Bool := fun i =>
        Bool.xor (defaults.getD i false) ((toggles.count i) % 2 == 1)
      some (((List.range options.length).filter checked).map
        (fun i => options.getD i ⟨0, ""⟩))

/-- The cli::Commands enum: the five subcommands of the tool. -/
inductive Commands where
  | RemovePackage (package_name : String)
  | CleanPackageCache
  | UninstallUnusedApps
  | RemoveOldKernels
  | CleanUpLogFiles
deriving DecidableEq, Repr

/-- cli::Commands::from_selection: the fixed key-to-action table. -/
def Commands.from_selection (selection : Nat) : Option Commands :=
  match selection with
  | 1 => some (Commands.RemovePackage "")
  | 2 => some Commands.CleanPackageCache
  | 3 => some Commands.UninstallUnusedApps
  | 4 => some Commands.RemoveOldKernels
  | 5 => some Commands.CleanUpLogFiles
  | _ => none

/-- Errors of Commands::execute, mirroring the distinct anyhow error values
of the source: an error propagated from execute_cmd, the invalid-response
and aborted messages of the package confirmation, the per-package spawn
context of the info loop, and the plain spawn context used elsewhere. -/
inductive AppErr where
  | cmd (e : CmdErr)
  | invalidResponse
  | aborted
  | spawnFailedFor (pkg : String)
  | spawnFailedPlain
deriving DecidableEq, Repr

/-- What one run of an action did: the external commands it invoked, in
order, each as (program, arguments), and the value execute returned. -/
structure Trace where
  invoked : List (String × List String)
  result : Except AppErr Unit

/-- The loop of the interactive RemovePackage workflow (lines 585-613): for
every selected package it spawns sudo dnf info with the trimmed package
name; a spawn failure propagates with a per-package context, a completed
child never fails the action (the error return in the source is commented
out). -/
def infoLoop (runner : String → List String → Option Output) :
    List String → Trace
  | [] => ⟨[], Except.ok ()⟩
  | pkg :: rest =>
    match runner "sudo" ["dnf", "info", trimString pkg] with
    | none =>
      ⟨[("sudo", ["dnf", "info", trimString pkg])],
        Except.error (AppErr.spawnFailedFor pkg)⟩
    | some _ =>
      let t := infoLoop runner rest
      ⟨("sudo", ["dnf", "info", trimString pkg]) :: t.invoked, t.result⟩

/-- The interactive branch of Commands::RemovePackage (lines 527-614).
pkgLines is the discovery output (dnf list --installed piped through awk,
lossily decoded, trimmed and split on newlines), selIdx the indices the
secondary MultiSelect returned, resp the confirmation line. A returned
none models the panic of indexing pkgs_installed out of bounds. The
source builds a no-packages-selected error when the selection is empty or
holds the sentinel "None", but the following if-let Ok discards it and the
arm falls through to the final Ok. -/
def removePackageInteractive (pkgLines : List String) (selIdx : List Nat)
    (resp : String) (runner : String → List String → Option Output) :
    Option Trace :=
  match selIdx.mapM (fun i => (pkgLines ++ ["None"])[i]?) with
  | none => none
  | some pkgsSelected =>
    if pkgsSelected.isEmpty then
      some ⟨[], Except.ok ()⟩
    else if "None" ∈ pkgsSelected then
      some ⟨[], Except.ok ()⟩
    else
      if trimString resp ≠ "y" ∧ trimString resp ≠ "n" then
        some ⟨[], Except.error AppErr.invalidResponse⟩
      else if ¬ (trimString resp = "y") then
        some ⟨[], Except.error AppErr.aborted⟩
      else
        some (infoLoop runner pkgsSelected)

/-- One invocation through execute_cmd, recording the command and folding
its outcome into the action result. -/
def runOnce (cmd : String) (args : List String)
    (runner : String → List String → Option Output) : Trace :=
  match execute_cmd cmd args (runner cmd args) with
  | Except.ok _ => ⟨[(cmd, args)], Except.ok ()⟩
  | Except.error e => ⟨[(cmd, args)], Except.error (AppErr.cmd e)⟩

/-- The direct branch of Commands::RemovePackage (lines 615-619): prompt
for a line, then run sudo dnf remove with that line trimmed. The binding
of the prompted line shadows the package_name field of the variant. -/
def removePackageDirect (inputLine : String)
    (runner : String → List String → Option Output) : Trace :=
  runOnce "sudo" ["dnf", "remove", trimString inputLine] runner

/-- Commands::RemoveOldKernels (lines 627-676). kernelLines is the rpm -q
kernel output after lossy decoding, trim and newline split; selIdx the
indices the secondary MultiSelect returned. On a real selection the source
joins the chosen kernels, builds the removal command text and pipes it
into xsel -ib; no removal command is run. A returned none models a panic:
out-of-bounds indexing, or the strict String::from_utf8 unwrap on the xsel
stdout. As in the package workflow, the no-kernels-selected error is
discarded by if-let Ok and the arm falls through to Ok. -/
def removeOldKernels (kernelLines : List String) (selIdx : List Nat)
    (runner : String → List String → Option Output) : Option Trace :=
  match selIdx.mapM (fun i => (kernelLines ++ ["None"])[i]?) with
  | none => none
  | some selectedKernels =>
    if selectedKernels.isEmpty then
      some ⟨[], Except.ok ()⟩
    else if "None" ∈ selectedKernels then
      some ⟨[], Except.ok ()⟩
    else
      let kernel := String.intercalate " " selectedKernels
      let _theString := String.intercalate " " ["sudo", "dnf", "remove", kernel]
      match runner "xsel" ["-ib"] with
      | none => some ⟨[("xsel", ["-ib"])], Except.error AppErr.spawnFailedPlain⟩
      | some o =>
        if validUtf8 o.stdout then some ⟨[("xsel", ["-ib"])], Except.ok ()⟩
        else none

/-- Embedding of Rust str::parse::<u32>: an optional leading plus sign,
then at least one ASCII digit, value below 2^32; anything else fails. -/
def parseU32 (s : String) : Option Nat :=
  let ds := s.data
  let ds := match ds with
    | '+' :: r => r
    | other => other
  if ds ≠ [] ∧ ds.all Char.isDigit then
    let v := ds.foldl (fun a c => a * 10 + (c.toNat - 48)) 0
    if v < 4294967296 then some v else none
  else none

/-- Modelled from the spec: the claim phrase "parses as an unsigned
integer" read with no width bound, for comparing against the parse the
code performs (parseU32). Same grammar, unbounded value. -/
def specParseUnsigned (s : String) : Option Nat :=
  let ds := s.data
  let ds := match ds with
    | '+' :: r => r
    | other => other
  if ds ≠ [] ∧ ds.all Char.isDigit then
    some (ds.foldl (fun a c => a * 10 + (c.toNat - 48)) 0)
  else none

/-- The flag Commands::CleanUpLogFiles builds (lines 677-682): the prompt
line is trimmed, parsed as u32 with fallback 7, and formatted into the
vacuum-time flag. -/
def vacuumFlag (line : String) : String :=
  "--vacuum-time=" ++ Nat.repr ((parseU32 (trimString line)).getD 7) ++ "d"

/-- The interactive inputs and external process behavior one run of
Commands::execute can observe. -/
structure Env where
  pkgLines : List String
  kernelLines : List String
  pkgSelIdx : List Nat
  kernelSelIdx : List Nat
  confirmLine : String
  inputLine : String
  runner : String → List String → Option Output

/-- cli::Commands::execute (lines 524-685) over an environment supplying
the interactive inputs and the process outcomes. A returned none models a
panic inside the workflow. -/
def Commands.execute (c : Commands) (env : Env) : Option Trace :=
  match c with
  | Commands.RemovePackage package_name =>
    if package_name = "" then
      removePackageInteractive env.pkgLines env.pkgSelIdx env.confirmLine env.runner
    else
      some (removePackageDirect env.inputLine env.runner)
  | Commands.CleanPackageCache => some (runOnce "sudo" ["dnf", "clean", "all"] env.runner)
  | Commands.UninstallUnusedApps => some (runOnce "sudo" ["dnf", "autoremove"] env.runner)
  | Commands.RemoveOldKernels =>
    removeOldKernels env.kernelLines env.kernelSelIdx env.runner
  | Commands.CleanUpLogFiles =>
    some (runOnce "sudo" ["journalctl", vacuumFlag env.inputLine] env.runner)

/-- The usize cast the menu loop applies to an i32 key (selection.key as
usize on a 64-bit target): reduction modulo 2^64 of the sign-extended
value. -/
def usizeOfI32 (k : Int) : Nat :=
  (k % (2 ^ 64 : Int)).toNat

/-- The interactive dispatch loop of main (lines 57-63): every returned
selection is mapped through from_selection; a mapped command is executed,
an execution error is printed and dropped, and the loop always finishes
with the Ok of main. The pair holds the commands that were dispatched, in
order, and the value the loop leaves main with. -/
def menuLoop (selections : List SelectableItem)
    (exec : Commands → Except AppErr Unit) : List Commands × Except AppErr Unit :=
  match selections with
  | [] => ([], Except.ok ())
  | s :: rest =>
    match Commands.from_selection (usizeOfI32 s.key) with
    | none => menuLoop rest exec
    | some c =>
      let _printedIfError := exec c
      let t := menuLoop rest exec
      (c :: t.1, t.2)

/-- A runner on which every spawn fails. -/
def noRunner : String → List String → Option Output :=
  fun _ _ => none

/-- A runner on which every spawn succeeds with exit status 0 and empty
output. -/
def okRunner : String → List String → Option Output :=
  fun _ _ => some ⟨0, [], []⟩

/-- Closed form of the prompt defaults run_dialoguer builds for a registry
of n items: all unchecked except a pre-checked last entry. Used in the
characterization lemma of run_dialoguer. -/
def menuDefaults (n : Nat) : List Bool :=
  if n = 0 then [] else List.replicate (n - 1) false ++ [true]

/-- A concrete environment for the direct RemovePackage branch: the user
types bar at the prompt and every spawn succeeds quietly. -/
def envDirect : Env :=
  ⟨[], [], [], [], "", "bar\n", okRunner⟩

/-- A concrete environment for the direct RemovePackage branch in which
the user types pkg and spawning fails. -/
def envDirectW : Env :=
  ⟨[], [], [], [], "", "pkg\n", noRunner⟩

/-- Appending options one by one onto a registry that already holds a list
yields the concatenation, in order. -/
theorem foldl_with_option_closed (acc : List SelectableItem) (opts : List SelectableItem) :
    opts.foldl with_option ⟨some acc⟩ = ⟨some (acc ++ opts)⟩ := by
  induction opts generalizing acc with
  | nil => simp
  | cons o t ih =>
    rw [List.foldl_cons]
    have h1 : with_option ⟨some acc⟩ o = ⟨some (acc ++ [o])⟩ := rfl
    rw [h1, ih]
    simp

/-- Characterization of run_dialoguer on a registry whose option list is
present: it returns the items at the checked indices, taken from the
ascending index range, where an index is checked when its default state
differs from the parity of its toggles. -/
theorem run_dialoguer_closed_form (options : List SelectableItem) (toggles : List Nat) :
    run_dialoguer ⟨some options⟩ toggles
      = some (((List.range options.length).filter
          (fun i => Bool.xor ((menuDefaults options.length).getD i false)
            ((toggles.count i) % 2 == 1))).map
          (fun i => options.getD i ⟨0, ""⟩)) := by
  cases options with
  | nil => rfl
  | cons a l =>
    obtain ⟨x, hx⟩ := Option.isSome_iff_exists.mp
      (List.getLast?_isSome.mpr (List.cons_ne_nil a l))
    unfold run_dialoguer menuDefaults
    simp [hx, List.replicate_succ, List.replicate_succ', List.dropLast_concat]

/-- C5: execute_cmd returns the permissively decoded, trimmed stdout
exactly on a zero exit status; a non-zero exit yields an error carrying
the status and the trimmed stderr; a spawn failure yields the distinct
spawn error; and on the output the echo child produces for arguments
hello world, the returned text is "hello world". -/
theorem execute_cmd_spec :
    (∀ (cmd : String) (args : List String) (o : Output), o.status = 0 →
       execute_cmd cmd args (some o) = Except.ok (trimString (lossyDecode o.stdout))) ∧
    (∀ (cmd : String) (args : List String) (o : Output), o.status ≠ 0 →
       execute_cmd cmd args (some o)
         = Except.error (CmdErr.commandFailed o.status (trimString (lossyDecode o.stderr)))) ∧
    (∀ (cmd : String) (args : List String),
       execute_cmd cmd args none
         = Except.error (CmdErr.spawnFailed
             ("Failed to execute command: " ++ cmd ++ " " ++ String.intercalate " " args))) ∧
    execute_cmd "echo" ["hello", "world"] (some ⟨0, asciiBytes "hello world\n", []⟩)
      = Except.ok "hello world" := by
  refine ⟨?_, ?_, ?_, rfl⟩
  · intro cmd args o h
    simp [execute_cmd, h]
  · intro cmd args o h
    simp [execute_cmd, h]
  · intro cmd args
    rfl

/-- Witness for execute_cmd_spec at concrete inputs: a succeeding child, a
child exiting with status 1, and a failed spawn. -/
theorem execute_cmd_spec_witness :
    execute_cmd "date" [] (some ⟨0, [], []⟩) = Except.ok "" ∧
    execute_cmd "ls" ["missing"] (some ⟨1, [], asciiBytes "gone\n"⟩)
      = Except.error (CmdErr.commandFailed 1 "gone") ∧
    execute_cmd "nosuch" [] none
      = Except.error (CmdErr.spawnFailed "Failed to execute command: nosuch ") :=
  ⟨execute_cmd_spec.1 "date" [] ⟨0, [], []⟩ rfl,
   execute_cmd_spec.2.1 "ls" ["missing"] ⟨1, [], asciiBytes "gone\n"⟩ (by decide),
   execute_cmd_spec.2.2.1 "nosuch" []⟩

/-- C8: the key-to-action table sends 1..5 to the five actions, in order,
each produced by exactly one key, and every other key (0, 99, anything
at least 6) to no action. -/
theorem from_selection_spec :
    Commands.from_selection 0 = none ∧
    Commands.from_selection 99 = none ∧
    Commands.from_selection 1 = some (Commands.RemovePackage "") ∧
    Commands.from_selection 2 = some Commands.CleanPackageCache ∧
    Commands.from_selection 3 = some Commands.UninstallUnusedApps ∧
    Commands.from_selection 4 = some Commands.RemoveOldKernels ∧
    Commands.from_selection 5 = some Commands.CleanUpLogFiles ∧
    (∀ k : Nat, 6 ≤ k → Commands.from_selection k = none) ∧
    (∀ j k : Nat, Commands.from_selection j = Commands.from_selection k →
       Commands.from_selection j ≠ none → j = k) := by
  have hnone : ∀ k : Nat, 6 ≤ k → Commands.from_selection k = none := by
    intro k hk
    obtain ⟨m, rfl⟩ := Nat.exists_eq_add_of_le' hk
    rfl
  refine ⟨rfl, rfl, rfl, rfl, rfl, rfl, rfl, hnone, ?_⟩
  intro j k h hne
  have hj : j < 6 := by
    by_contra hc
    push_neg at hc
    exact hne (hnone j hc)
  have hk6 : k < 6 := by
    by_contra hc
    push_neg at hc
    rw [h] at hne
    exact hne (hnone k hc)
  interval_cases j <;> interval_cases k <;> simp_all [Commands.from_selection]

/-- Witness for from_selection_spec: the none case beyond the table and
the injectivity at key 3. -/
theorem from_selection_spec_witness :
    Commands.from_selection 42 = none ∧ (3 : Nat) = 3 :=
  ⟨from_selection_spec.2.2.2.2.2.2.2.1 42 (by decide),
   from_selection_spec.2.2.2.2.2.2.2.2 3 3 rfl (by decide)⟩

/-- C9: a registry built by successive with_option appends renders, via
format_prompt_item, to the key: label strings of exactly its items in
insertion order (so same length and order), and an empty registry renders
to the empty list as a success, not an error. -/
theorem format_prompt_item_spec :
    (∀ opts : List SelectableItem,
       format_prompt_item (opts.foldl with_option DiskSpaceOptimizerItems.new)
         = Except.ok (opts.map (fun item => Int.repr item.key ++ ": " ++ item.text)) ∧
       (opts.foldl with_option DiskSpaceOptimizerItems.new).options.getD [] = opts) ∧
    format_prompt_item DiskSpaceOptimizerItems.new = Except.ok [] := by
  constructor
  · intro opts
    cases opts with
    | nil => exact ⟨rfl, rfl⟩
    | cons o t =>
      rw [List.foldl_cons,
        show with_option DiskSpaceOptimizerItems.new o = ⟨some [o]⟩ from rfl,
        foldl_with_option_closed]
      exact ⟨rfl, rfl⟩
  · rfl

/-- C10: run_dialoguer is total on every registry built by at least one
with_option append (the unwraps of the options field and of its last
element succeed), while on a registry fresh from new, whose options field
is still missing, it panics (modelled as none) instead of returning an
interaction error. -/
theorem run_dialoguer_nonempty_safety :
    (∀ (first : SelectableItem) (rest : List SelectableItem) (toggles : List Nat),
       (run_dialoguer (rest.foldl with_option
           (with_option DiskSpaceOptimizerItems.new first)) toggles).isSome = true) ∧
    (∀ toggles : List Nat, run_dialoguer DiskSpaceOptimizerItems.new toggles = none) := by
  constructor
  · intro first rest toggles
    rw [show with_option DiskSpaceOptimizerItems.new first = ⟨some [first]⟩ from rfl,
      foldl_with_option_closed, run_dialoguer_closed_form]
    rfl
  · intro toggles
    rfl

/-- C7: the multi-select returns indices in strictly ascending registry
order whatever the toggles were, the result is invariant under permuting
the toggle sequence, and on the six-entry menu toggling item 3 then item 1
equals toggling 1 then 3 and lists item 1 before item 3 (with the
pre-checked Exit entry). The toggle semantics of the external dialoguer
MultiSelect backend is modelled from the spec. -/
theorem run_dialoguer_registry_order :
    (∀ (options : List SelectableItem) (toggles : List Nat),
       ∃ sel : List Nat, List.Pairwise (· < ·) sel ∧ (∀ i ∈ sel, i < options.length) ∧
         run_dialoguer ⟨some options⟩ toggles
           = some (sel.map (fun i => options.getD i ⟨0, ""⟩))) ∧
    (∀ (items : DiskSpaceOptimizerItems) (t1 t2 : List Nat), t1.Perm t2 →
       run_dialoguer items t1 = run_dialoguer items t2) ∧
    run_dialoguer get_commands [3, 1] = run_dialoguer get_commands [1, 3] ∧
    run_dialoguer get_commands [3, 1]
      = some [⟨2, "Clean package cache"⟩, ⟨4, "Remove old kernel versions"⟩, ⟨0, "Exit"⟩] := by
  refine ⟨?_, ?_, by decide, by decide⟩
  · intro options toggles
    refine ⟨_, ?_, ?_, run_dialoguer_closed_form options toggles⟩
    · exact List.Pairwise.sublist (List.filter_sublist _) (List.pairwise_lt_range _)
    · intro i hi
      exact List.mem_range.mp (List.mem_of_mem_filter hi)
  · intro items t1 t2 hperm
    obtain ⟨options⟩ := items
    cases options with
    | none => rfl
    | some options =>
      rw [run_dialoguer_closed_form, run_dialoguer_closed_form]
      have hf : ∀ i ∈ List.range options.length,
          (Bool.xor ((menuDefaults options.length).getD i false) ((t1.count i) % 2 == 1))
            = (Bool.xor ((menuDefaults options.length).getD i false) ((t2.count i) % 2 == 1)) := by
        intro i _
        rw [hperm.count_eq]
      rw [List.filter_congr hf]

/-- Witness for run_dialoguer_registry_order: the permutation conjunct
applied to the toggle sequences 3,1 and 1,3 on the menu registry. -/
theorem run_dialoguer_registry_order_witness :
    run_dialoguer get_commands [3, 1] = run_dialoguer get_commands [1, 3] :=
  run_dialoguer_registry_order.2.1 get_commands [3, 1] [1, 3] (by decide)

/-- C4: the interactive dispatch loop of main executes every mapped
selection in order, whatever each execute call returns (so an error from
one action does not stop the remaining ones), and always leaves main with
the Ok value. -/
theorem menuLoop_dispatches_all :
    ∀ (selections : List SelectableItem) (exec : Commands → Except AppErr Unit),
      menuLoop selections exec
        = (selections.filterMap (fun s => Commands.from_selection (usizeOfI32 s.key)),
           Except.ok ()) := by
  intro selections exec
  induction selections with
  | nil => rfl
  | cons s rest ih =>
    unfold menuLoop
    rw [List.filterMap_cons]
    cases h : Commands.from_selection (usizeOfI32 s.key) with
    | none => rw [ih]
    | some c => rw [ih]

/-- C1 (amended): whenever the secondary multi-select of the interactive
RemovePackage action or of RemoveOldKernels returns an empty set or a set
holding the sentinel "None" entry, no command at all is invoked, but
execute returns success: the internally built no-selection error is
discarded by the if-let Ok guard and the arm falls through to Ok. -/
theorem no_selection_skips_removal :
    (∀ (pkgLines : List String) (selIdx : List Nat) (resp : String)
       (runner : String → List String → Option Output) (sel : List String),
       selIdx.mapM (fun i => (pkgLines ++ ["None"])[i]?) = some sel →
       (sel.isEmpty = true ∨ "None" ∈ sel) →
       removePackageInteractive pkgLines selIdx resp runner = some ⟨[], Except.ok ()⟩) ∧
    (∀ (kernelLines : List String) (selIdx : List Nat)
       (runner : String → List String → Option Output) (sel : List String),
       selIdx.mapM (fun i => (kernelLines ++ ["None"])[i]?) = some sel →
       (sel.isEmpty = true ∨ "None" ∈ sel) →
       removeOldKernels kernelLines selIdx runner = some ⟨[], Except.ok ()⟩) := by
  constructor
  · intro pkgLines selIdx resp runner sel h hsel
    unfold removePackageInteractive
    rw [h]
    rcases hsel with hempty | hmem
    · rw [List.isEmpty_iff] at hempty
      subst hempty
      rfl
    · have hne : sel.isEmpty = false := by
        cases sel with
        | nil => simp at hmem
        | cons a t => rfl
      simp [hne, hmem]
  · intro kernelLines selIdx runner sel h hsel
    unfold removeOldKernels
    rw [h]
    rcases hsel with hempty | hmem
    · rw [List.isEmpty_iff] at hempty
      subst hempty
      rfl
    · have hne : sel.isEmpty = false := by
        cases sel with
        | nil => simp at hmem
        | cons a t => rfl
      simp [hne, hmem]

/-- Witness for no_selection_skips_removal: an empty package selection and
a kernel selection holding only the sentinel. -/
theorem no_selection_skips_removal_witness :
    removePackageInteractive ["a"] [] "y" noRunner = some ⟨[], Except.ok ()⟩ ∧
    removeOldKernels ["k"] [1] noRunner = some ⟨[], Except.ok ()⟩ :=
  ⟨no_selection_skips_removal.1 ["a"] [] "y" noRunner [] rfl (Or.inl rfl),
   no_selection_skips_removal.2 ["k"] [1] noRunner ["None"] rfl (Or.inr (by decide))⟩

/-- C1 as stated is false on the code: with an empty package selection, and
with a kernel selection that is exactly the sentinel, execute returns the
Ok value, not an error (and invokes nothing). -/
theorem no_selection_claim_false :
    removePackageInteractive ["a", "b"] [] "y" noRunner = some ⟨[], Except.ok ()⟩ ∧
    removeOldKernels ["k1", "k2"] [2] noRunner = some ⟨[], Except.ok ()⟩ :=
  ⟨rfl, rfl⟩

/-- C2: at the failing input (one discovered package pkg1, selection of
index 0, confirmation line y, every spawn succeeding) the code invokes
sudo dnf info pkg1 and never any remove command; the confirmation line n
yields the aborted error and a line that is neither y nor n yields the
distinct invalid-response error, both without invoking anything. -/
theorem remove_package_invokes_info_not_remove :
    removePackageInteractive ["pkg1"] [0] "y\n" okRunner
      = some ⟨[("sudo", ["dnf", "info", "pkg1"])], Except.ok ()⟩ ∧
    [("sudo", ["dnf", "info", "pkg1"])].contains ("sudo", ["dnf", "remove", "pkg1"]) = false ∧
    removePackageInteractive ["pkg1"] [0] "n\n" okRunner
      = some ⟨[], Except.error AppErr.aborted⟩ ∧
    removePackageInteractive ["pkg1"] [0] "maybe\n" okRunner
      = some ⟨[], Except.error AppErr.invalidResponse⟩ :=
  ⟨rfl, by decide, rfl, rfl⟩

/-- C3 (amended): for a RemovePackage action carrying a present name,
execute skips discovery and invokes the remove operation exactly once,
but its single package argument is the trimmed line read at the prompt,
which shadows the given name; the given name only selects the branch. -/
theorem remove_package_direct_uses_prompt_line :
    ∀ (name : String) (env : Env), name ≠ "" →
      Commands.execute (Commands.RemovePackage name) env
        = some (removePackageDirect env.inputLine env.runner) ∧
      (removePackageDirect env.inputLine env.runner).invoked
        = [("sudo", ["dnf", "remove", trimString env.inputLine])] := by
  intro name env h
  constructor
  · simp [Commands.execute, h]
  · unfold removePackageDirect runOnce
    split <;> rfl

/-- Witness for remove_package_direct_uses_prompt_line: the action built
with the name foo in an environment where the user types pkg. -/
theorem remove_package_direct_uses_prompt_line_witness :
    Commands.execute (Commands.RemovePackage "foo") envDirectW
      = some (removePackageDirect envDirectW.inputLine envDirectW.runner) ∧
    (removePackageDirect envDirectW.inputLine envDirectW.runner).invoked
      = [("sudo", ["dnf", "remove", trimString envDirectW.inputLine])] :=
  remove_package_direct_uses_prompt_line "foo" envDirectW (by decide)

/-- C3 as stated is false on the code: the action built with the name foo,
in an environment where the prompt line is bar, invokes remove with bar
and never with the given name foo. -/
theorem remove_package_direct_name_ignored :
    Commands.execute (Commands.RemovePackage "foo") envDirect
      = some ⟨[("sudo", ["dnf", "remove", "bar"])], Except.ok ()⟩ ∧
    [("sudo", ["dnf", "remove", "bar"])].contains ("sudo", ["dnf", "remove", "foo"]) = false :=
  ⟨rfl, by decide⟩

/-- C6 (amended): the CleanUpLogFiles action never fails on its numeric
input: a prompt line whose trim parses as an unsigned 32-bit integer N
yields the single flag value embedding N, any other line (malformed like
abc, or an integer of at least 2^32 overflowing the parse) falls back to
the default 7; the action invokes the log-retention command with exactly
that one flag. -/
theorem clean_up_log_files_flag :
    (∀ (line : String) (n : Nat), parseU32 (trimString line) = some n →
       vacuumFlag line = "--vacuum-time=" ++ Nat.repr n ++ "d") ∧
    (∀ line : String, parseU32 (trimString line) = none →
       vacuumFlag line = "--vacuum-time=7d") ∧
    vacuumFlag "abc" = vacuumFlag "7" ∧
    vacuumFlag "abc" = "--vacuum-time=7d" ∧
    (∀ env : Env,
       Commands.execute Commands.CleanUpLogFiles env
         = some (runOnce "sudo" ["journalctl", vacuumFlag env.inputLine] env.runner) ∧
       (runOnce "sudo" ["journalctl", vacuumFlag env.inputLine] env.runner).invoked
         = [("sudo", ["journalctl", vacuumFlag env.inputLine])]) := by
  refine ⟨?_, ?_, rfl, rfl, ?_⟩
  · intro line n h
    unfold vacuumFlag
    rw [h]
    rfl
  · intro line h
    unfold vacuumFlag
    rw [h]
    rfl
  · intro env
    refine ⟨rfl, ?_⟩
    unfold runOnce
    split <;> rfl

/-- Witness for clean_up_log_files_flag: the parsing line 12 and the
malformed line oops. -/
theorem clean_up_log_files_flag_witness :
    vacuumFlag "12\n" = "--vacuum-time=" ++ Nat.repr 12 ++ "d" ∧
    vacuumFlag "oops" = "--vacuum-time=7d" :=
  ⟨clean_up_log_files_flag.1 "12\n" 12 (by decide),
   clean_up_log_files_flag.2.1 "oops" (by decide)⟩

/-- C6 as stated is false on the code at the line 4294967296: it parses as
an unsigned integer in the unbounded sense of the claim, yet the u32 parse
overflows, so the code falls back to the 7-day flag instead of embedding
4294967296. -/
theorem clean_up_log_files_overflow :
    specParseUnsigned (trimString "4294967296") = some 4294967296 ∧
    vacuumFlag "4294967296" = "--vacuum-time=7d" ∧
    (("--vacuum-time=7d" : String) == "--vacuum-time=" ++ Nat.repr 4294967296 ++ "d") = false :=
  ⟨rfl, rfl, by decide⟩
